import Mathlib

/-!
Verification of the pharmacist staffing-request system.

Shallow embedding of the request registry (`shared/services/request_manager.py`),
the store-accept arbitration handler, the confirmation/dispatch handler, the
pharmacist-apply handler, the pharmacist notification fan-out
(`app/services/pharmacist_notification_service.py`), the headcount parsing
(`app/utils/text_parser.py`, `handle_count_choice`), and the end-time band
selection (`app/api/line_webhook.py`).

Dates are Python `date` objects used only for display and dictionary lookups
here; they are modelled as opaque strings.  Message sends and spreadsheet
writes are modelled as steps in an emitted trace, in program order.
-/

namespace Shift

/-- One stored staffing request: the dictionary saved by
`RequestManager.save_request` from `handle_confirmation_yes`, plus the
`applicants`/`confirmed` lists created lazily by `setdefault` (absence is
modelled as `[]`) and the `count` postback token, which `get('count', ...)`
reads but which `handle_confirmation_yes` never writes (hence `Option`). -/
structure RequestData where
  date : Option String
  timeSlot : String
  requiredCount : Nat
  count : Option String
  notes : Option String
  store : String
  storeUserId : String
  startTimeLabel : String
  endTimeLabel : String
  breakTimeLabel : String
  countText : String
  status : String
  applicants : List String
  confirmed : List String
  deriving DecidableEq

/-- The in-memory registry `RequestManager._requests`: a dictionary keyed by
request id, modelled as an association list (each key occurs at most once in
any state the program builds). -/
abbrev Registry := List (String × RequestData)

/-- `RequestManager.get_request`: dictionary lookup, `None` when absent. -/
def getRequest (reg : Registry) (rid : String) : Option RequestData :=
  (reg.find? (fun p => p.1 == rid)).map (fun p => p.2)

/-- Replace the value stored under `rid`, or insert it at the end when the key
is absent (Python dict assignment). -/
def setRequest (reg : Registry) (rid : String) (d : RequestData) : Registry :=
  if (reg.find? (fun p => p.1 == rid)).isSome then
    reg.map (fun p => if p.1 == rid then (p.1, d) else p)
  else
    reg ++ [(rid, d)]

/-- `RequestManager.save_request`: stores the data under `rid` with
`status` forced to `"pending"` (the `created_at` timestamp is out of model). -/
def saveRequest (reg : Registry) (rid : String) (d : RequestData) : Registry :=
  setRequest reg rid { d with status := "pending" }

/-- Apply `f` to the request stored under `rid`, leaving other keys alone
(the in-place mutation pattern of `add_applicant` / `add_confirmed`). -/
def updateRequest (reg : Registry) (rid : String) (f : RequestData → RequestData) :
    Registry :=
  reg.map (fun p => if p.1 == rid then (p.1, f p.2) else p)

/-- `RequestManager.add_applicant`: silently returns when the request id is
absent; otherwise appends the user to `applicants` unless already a member. -/
def addApplicant (reg : Registry) (rid uid : String) : Registry :=
  match getRequest reg rid with
  | none => reg
  | some _ =>
      updateRequest reg rid (fun d =>
        { d with applicants :=
            if uid ∈ d.applicants then d.applicants else d.applicants ++ [uid] })

/-- `RequestManager.add_confirmed`: silently returns when the request id is
absent; otherwise appends the user to `confirmed` unless already a member.
No membership in `applicants` is ever checked. -/
def addConfirmed (reg : Registry) (rid uid : String) : Registry :=
  match getRequest reg rid with
  | none => reg
  | some _ =>
      updateRequest reg rid (fun d =>
        { d with confirmed :=
            if uid ∈ d.confirmed then d.confirmed else d.confirmed ++ [uid] })

/-- `RequestManager.get_applicants`: `[]` when the request is absent. -/
def getApplicants (reg : Registry) (rid : String) : List String :=
  match getRequest reg rid with
  | none => []
  | some d => d.applicants

/-- `RequestManager.get_confirmed`: `[]` when the request is absent. -/
def getConfirmed (reg : Registry) (rid : String) : List String :=
  match getRequest reg rid with
  | none => []
  | some d => d.confirmed

/-! ### Store-accept arbitration (`handle_pharmacist_confirm_accept`) -/

/-- External collaborators the accept handler touches: the spreadsheet row
lookup (`_get_pharmacist_list` row for a chat user id) and whether
`google_sheets_service.service` is set. -/
structure AcceptEnv where
  rowOf : String → Option Nat
  serviceUp : Bool

/-- One observable step of the accept handler, in program order: the reply on
an unknown request, the best-effort spreadsheet write, the push message to
the accepted pharmacist, the reply to the acting store, the registry
mutation, and the closure ("not selected") push messages. -/
inductive AcceptStep where
  | failReply (text : String)
  | sheetWrite (uid : String) (cell : String)
  | pharmacistMsg (uid : String) (text : String)
  | storeReply (text : String)
  | addConfirmedStep (rid : String) (uid : String)
  | closureMsg (uid : String) (text : String)
  deriving DecidableEq

/-- `count = request_data.get('count', 'count_1')` followed by the
`count_2`/`count_3_plus` decode: the fill threshold the accept handler uses. -/
def countNumOfRequest (rd : RequestData) : Nat :=
  let count := rd.count.getD "count_1"
  if count == "count_2" then 2 else if count == "count_3_plus" then 3 else 1

/-- The cell value written on accept: start〜end plus the store name. -/
def sheetCellText (rd : RequestData) : String :=
  rd.startTimeLabel ++ "〜" ++ rd.endTimeLabel ++ " " ++ rd.store

/-- The best-effort spreadsheet write of the accept handler: skipped when the
request has no date, when no row is found for the pharmacist, or when the
sheets service is unset; all failures are logged and swallowed. -/
def sheetSteps (env : AcceptEnv) (rd : RequestData) (uid : String) :
    List AcceptStep :=
  match rd.date with
  | none => []
  | some _ =>
      match env.rowOf uid with
      | none => []
      | some _ => if env.serviceUp then [.sheetWrite uid (sheetCellText rd)] else []

/-- The confirmation message pushed to the accepted pharmacist
(`str(date)` renders an absent date as `"None"`). -/
def confirmMsgText (rd : RequestData) : String :=
  let dateStr := match rd.date with | some d => d | none => "None"
  "✅ 勤務確定のお知らせ\n\n日付: " ++ dateStr ++ "\n時間: " ++ rd.startTimeLabel
    ++ "〜" ++ rd.endTimeLabel ++ "\n店舗: " ++ rd.store ++ "\n"

def notFoundText : String := "依頼内容が見つかりませんでした。"

def storeAckText : String := "確定処理が完了しました。"

def closureText : String := "今回は他の方で確定しました。またのご応募をお待ちしております。"

/-- `handle_pharmacist_confirm_accept`: look up the request (reply and stop
when absent); write the spreadsheet cell best-effort; push the confirmation
to the pharmacist; reply completion to the store; add the pharmacist to
`confirmed`; then, when `len(confirmed) >= count_num` (with `count_num`
decoded from the `count` key, default `count_1`), push a closure message to
every applicant not in `confirmed`.  Returns the new registry and the step
trace in program order. -/
def handlePharmacistConfirmAccept (env : AcceptEnv) (reg : Registry)
    (rid uid : String) : Registry × List AcceptStep :=
  match getRequest reg rid with
  | none => (reg, [.failReply notFoundText])
  | some rd =>
      let reg' := addConfirmed reg rid uid
      let confirmed := getConfirmed reg' rid
      let applicants := getApplicants reg' rid
      let closure : List AcceptStep :=
        if countNumOfRequest rd ≤ confirmed.length then
          (applicants.filter (fun a => !(confirmed.contains a))).map
            (fun a => .closureMsg a closureText)
        else []
      (reg', sheetSteps env rd uid
        ++ [.pharmacistMsg uid (confirmMsgText rd), .storeReply storeAckText,
            .addConfirmedStep rid uid]
        ++ closure)

/-- The registry effect of a store accept, separated from the message trace:
`add_confirmed` when the request exists, the unchanged registry otherwise. -/
def acceptRegistry (reg : Registry) (rid uid : String) : Registry :=
  match getRequest reg rid with
  | none => reg
  | some _ => addConfirmed reg rid uid

/-- The emitted step trace of the accept handler. -/
def acceptTrace (env : AcceptEnv) (reg : Registry) (rid uid : String) :
    List AcceptStep :=
  (handlePharmacistConfirmAccept env reg rid uid).2

/-! ### Reachable registry states -/

/-- The registry-mutating entry points of the webhook: a confirmation save, a
pharmacist apply, and a store accept. -/
inductive RegistryEvent where
  | saveEvt (rid : String) (d : RequestData)
  | applyEvt (rid : String) (uid : String)
  | acceptEvt (rid : String) (uid : String)

/-- Registry semantics of one event. -/
def stepRegistry (reg : Registry) : RegistryEvent → Registry
  | .saveEvt rid d => saveRequest reg rid d
  | .applyEvt rid uid => addApplicant reg rid uid
  | .acceptEvt rid uid => acceptRegistry reg rid uid

/-- The registry reached from the empty initial store by a sequence of
webhook events. -/
def runEvents (evts : List RegistryEvent) : Registry :=
  evts.foldl stepRegistry []

/-- The candidate invariant: every confirmed pharmacist of every stored
request is among that request's applicants. -/
def ConfirmedSubsetApplicants (reg : Registry) : Prop :=
  ∀ rid d, getRequest reg rid = some d → ∀ u ∈ d.confirmed, u ∈ d.applicants

/-- The temporal property claimed for the accept flow: every completion
acknowledgment to the store occurs in the trace strictly after the
`add_confirmed` registry mutation. -/
def AckOnlyAfterAddConfirmed (rid uid : String) (t : List AcceptStep) : Prop :=
  ∀ i j, t.get? i = some (.storeReply storeAckText) →
    t.get? j = some (.addConfirmedStep rid uid) → j < i

/-- Python `str.startswith`, over the character lists (kernel-computable). -/
def strStartsWith (s head : String) : Bool :=
  s.data.take head.data.length == head.data

/-- Python `int` on the digit-only time tokens: the decimal value of a digit
character list. -/
def digitsVal (cs : List Char) : Nat :=
  cs.foldl (fun acc c => acc * 10 + (c.toNat - 48)) 0

/-! ### Pharmacist notification fan-out
(`PharmacistNotificationService.notify_pharmacists_of_request`) -/

/-- One directory row handed to the fan-out: `pharmacist.get("user_id")`
(absent → `none`) and the display name. -/
structure PharmacistRec where
  userId : Option String
  name : String
  deriving DecidableEq

/-- Collaborator state of the notification service: the environment flags and
the outcome of an actual LINE push to a given user id. -/
structure NotifyEnv where
  isDevelopment : Bool
  isProduction : Bool
  sendOk : String → Bool

/-- The counters returned by the fan-out (`total_pharmacists`,
`notified_count`, `failed_count`, `failed_pharmacists` as name/reason pairs). -/
structure NotifyResult where
  totalPharmacists : Nat
  notifiedCount : Nat
  failedCount : Nat
  failedPharmacists : List (String × String)
  deriving DecidableEq

/-- `_send_notification_to_pharmacist`: empty and format-invalid user ids are
skipped and reported as success ("development convenience"); development test
ids likewise; otherwise the push outcome decides. -/
def sendNotificationToPharmacist (env : NotifyEnv) (uid : String) : Bool :=
  if uid == "" then true
  else if !(strStartsWith uid "U") || uid.length != 33 then true
  else if env.isDevelopment && strStartsWith uid "U1234567890" then true
  else if env.isProduction || (uid.length == 33 && strStartsWith uid "U") then
    env.sendOk uid
  else true

/-- One iteration of the fan-out loop: a missing or empty `user_id` is counted
as a failure with reason "No LINE user ID" and no send is attempted;
otherwise the send outcome increments `notified_count` or `failed_count`. -/
def notifyStep (env : NotifyEnv) (acc : NotifyResult) (p : PharmacistRec) :
    NotifyResult :=
  match p.userId with
  | none =>
      { acc with
        failedCount := acc.failedCount + 1
        failedPharmacists := acc.failedPharmacists ++ [(p.name, "No LINE user ID")] }
  | some uid =>
      if uid == "" then
        { acc with
          failedCount := acc.failedCount + 1
          failedPharmacists := acc.failedPharmacists ++ [(p.name, "No LINE user ID")] }
      else if sendNotificationToPharmacist env uid then
        { acc with notifiedCount := acc.notifiedCount + 1 }
      else
        { acc with
          failedCount := acc.failedCount + 1
          failedPharmacists := acc.failedPharmacists ++ [(p.name, "Notification failed")] }

/-- `notify_pharmacists_of_request`: fold of `notifyStep` over the selected
records, starting from counters at zero and `total_pharmacists` set to the
list length. -/
def notifyPharmacistsOfRequest (env : NotifyEnv) (ps : List PharmacistRec) :
    NotifyResult :=
  ps.foldl (notifyStep env)
    { totalPharmacists := ps.length
      notifiedCount := 0
      failedCount := 0
      failedPharmacists := [] }

/-- A record enters the send path at all: `user_id` present and non-empty. -/
def hasUsableId (p : PharmacistRec) : Bool :=
  match p.userId with
  | none => false
  | some uid => uid != ""

/-- A record the loop counts as notified: usable id and a send path reporting
success. -/
def notifySucceeds (env : NotifyEnv) (p : PharmacistRec) : Bool :=
  hasUsableId p && sendNotificationToPharmacist env (p.userId.getD "")

/-! ### Confirmation and dispatch (`handle_confirmation_yes`) -/

/-- The per-user temp data read at confirmation time (`get_temp_data`). -/
structure TempData where
  date : Option String
  timeSlot : Option String
  requiredCount : Option Nat
  notes : Option String
  startTimeData : Option String
  endTimeData : Option String
  breakTimeData : Option String

/-- The nested `time_label` helper of `handle_confirmation_yes` and
`handle_count_choice`: strips the token head and inserts a colon by length. -/
def timeLabelOf (data : Option String) (head : String) : String :=
  match data with
  | none => "未選択"
  | some s =>
      if !(strStartsWith s head) then "未選択"
      else
        let t := s.drop head.length
        if t.length == 3 then t.take 1 ++ ":" ++ t.drop 1
        else if t.length == 4 then t.take 2 ++ ":" ++ t.drop 2
        else t

/-- The `break_30`/`break_60`/`break_90`/`break_120` display mapping. -/
def breakTimeLabelOf (data : Option String) : String :=
  match data with
  | some "break_30" => "30分"
  | some "break_60" => "1時間"
  | some "break_90" => "1時間30分"
  | some "break_120" => "2時間"
  | _ => "未選択"

def missingFieldsText : String := "依頼内容が見つかりません。最初からやり直してください。"

def noStoreText : String := "店舗情報の取得に失敗しました。"

def confirmOkText : String :=
  "✅ 依頼を受け付けました！\n\n薬剤師に通知を送信しました。\n応募があったらご連絡いたします。"

/-- Outcome of `handle_confirmation_yes`: the early error replies, or the
dispatched request with the saved data, the pharmacists selected for
notification, and the fan-out result. -/
inductive ConfirmOutcome where
  | missingFields (reply : String)
  | noStore (reply : String)
  | dispatched (rid : String) (saved : RequestData)
      (selected : List PharmacistRec) (notify : NotifyResult) (reply : String)

/-- The request dictionary built by `handle_confirmation_yes` before saving:
carries `required_count` (and a display `count_text`) but no `count` key, and
no applicant/confirmed lists. -/
def confirmationRequestData (temp : TempData) (dateV : String) (tsV : String)
    (n : Nat) (storeName userId : String) : RequestData :=
  { date := some dateV
    timeSlot := tsV
    requiredCount := n
    count := none
    notes := temp.notes
    store := storeName
    storeUserId := userId
    startTimeLabel := timeLabelOf temp.startTimeData "start_time_"
    endTimeLabel := timeLabelOf temp.endTimeData "end_time_"
    breakTimeLabel := breakTimeLabelOf temp.breakTimeData
    countText := toString n ++ "名"
    status := ""
    applicants := []
    confirmed := [] }

/-- `handle_confirmation_yes`: rejects when date, time slot or headcount is
missing (Python truthiness: a zero count or empty slot string is also
rejected), rejects when the store lookup fails, otherwise saves the request,
selects the first `required_count` available pharmacists
(`available_pharmacists[:count_num]`) and fans out notifications to them. -/
def handleConfirmationYes (nenv : NotifyEnv) (temp : TempData)
    (storeName : Option String) (available : List PharmacistRec)
    (reg : Registry) (rid userId : String) : Registry × ConfirmOutcome :=
  match temp.date, temp.timeSlot, temp.requiredCount with
  | some dateV, some tsV, some n =>
      if tsV == "" || n == 0 then (reg, .missingFields missingFieldsText)
      else
        match storeName with
        | none => (reg, .noStore noStoreText)
        | some sN =>
            let rd := confirmationRequestData temp dateV tsV n sN userId
            let reg' := saveRequest reg rid rd
            let selected := available.take n
            let notify := notifyPharmacistsOfRequest nenv selected
            (reg', .dispatched rid { rd with status := "pending" } selected
              notify confirmOkText)
  | _, _, _ => (reg, .missingFields missingFieldsText)

/-- The number of pharmacists selected for notification by an outcome. -/
def selectedCount : ConfirmOutcome → Nat
  | .dispatched _ _ selected _ _ => selected.length
  | _ => 0

/-! ### Headcount parsing (`parse_shift_request`, `handle_count_choice`) -/

/-- The headcount portion of `parse_shift_request`: the regex collaborator
yields the matched number (if any); default 1; values above 3 clamp to 3. -/
def parseShiftRequestRequiredCount (countMatch : Option Nat) : Nat :=
  match countMatch with
  | none => 1
  | some n => if n > 3 then 3 else n

/-- The `count_num` computed by `handle_count_choice` from the tapped menu
postback: `count_2` → 2, `count_3_plus` → 3, anything else → 1. -/
def countChoiceRequiredCount (postbackData : String) : Nat :=
  if postbackData == "count_2" then 2
  else if postbackData == "count_3_plus" then 3 else 1

/-! ### End-time band selection (`handle_end_time_band_detail_selection`,
`handle_postback`) -/

/-- The fixed per-band end-time lists (hour, minute). -/
def endBandTimes (bandData : String) : List (Nat × Nat) :=
  if bandData == "end_band_day" then
    [(10,0),(10,30),(11,0),(11,30),(12,0),(12,30),(13,0),(13,30),(14,0),(14,30),(15,0),(15,30),(16,0)]
  else if bandData == "end_band_evening" then
    [(16,0),(16,30),(17,0),(17,30),(18,0),(18,30),(19,0)]
  else
    [(19,0),(19,30),(20,0),(20,30),(21,0),(21,30),(22,0)]

/-- The filter applied to a band: keep only times strictly after the start
(`h > start_hour or (h == start_hour and m > start_minute)`). -/
def selectableEndTimes (bandData : String) (sh sm : Nat) : List (Nat × Nat) :=
  (endBandTimes bandData).filter
    (fun p => decide (p.1 > sh ∨ (p.1 = sh ∧ p.2 > sm)))

/-- `(h, m)` lies strictly after the start `(sh, sm)`. -/
def afterStart (sh sm h m : Nat) : Prop :=
  h > sh ∨ (h = sh ∧ m > sm)

/-- Token decoding used by the handler: strip the token head, then split the
digits into hour and minute by length (3 digits → 1+2, otherwise 2+2). -/
def parseTimeToken (head s : String) : Nat × Nat :=
  let t := s.data.drop head.data.length
  if t.length == 3 then (digitsVal (t.take 1), digitsVal (t.drop 1))
  else (digitsVal (t.take 2), digitsVal (t.drop 2))

def startUnsetText : String := "開始時間が未設定です。最初からやり直してください。"

def rePromptText : String := "終了時間は開始時間より後を選択してください。別の帯を選んでください。"

def endMenuText : String := "勤務終了時間を選択してください"

/-- Outcome of `handle_end_time_band_detail_selection`: the missing-start
error, the re-prompt when the band holds no qualifying time, or the offered
quick-reply menu. -/
inductive EndBandOutcome where
  | startUnset (text : String)
  | rePrompt (text : String)
  | menu (options : List (Nat × Nat)) (text : String)
  deriving DecidableEq

/-- `handle_end_time_band_detail_selection`: decode the stored start token,
filter the chosen band to times strictly after it, re-prompt when nothing
qualifies, otherwise offer exactly the qualifying times. -/
def handleEndTimeBandDetailSelection (startTimeData : Option String)
    (bandData : String) : EndBandOutcome :=
  match startTimeData with
  | none => .startUnset startUnsetText
  | some s =>
      let sp := parseTimeToken "start_time_" s
      let sel := selectableEndTimes bandData sp.1 sp.2
      if sel = [] then .rePrompt rePromptText
      else .menu sel endMenuText

/-- The options a band-selection outcome offers (none for errors). -/
def offeredOptions : EndBandOutcome → List (Nat × Nat)
  | .menu options _ => options
  | _ => []

/-- The draft fields of the step-by-step flow that the postback handler
mutates (`set_temp_data` keys `start_time`, `end_time`, `break_time`). -/
structure Draft where
  startTime : Option String
  endTime : Option String
  breakTime : Option String
  deriving DecidableEq

/-- The `end_time_` branch of `handle_postback`: any postback whose data
starts with `end_time_` is stored into the draft as-is, with no comparison
against the stored start time. -/
def handleEndTimePostback (d : Draft) (postbackData : String) : Draft :=
  if strStartsWith postbackData "end_time_" then
    { d with endTime := some postbackData }
  else d

/-! ### Pharmacist apply (`handle_pharmacist_apply`, `_handle_application`) -/

/-- The cached role of the acting chat user (`get_user_type`). -/
inductive UserType where
  | unknown
  | store
  | pharmacist
  deriving DecidableEq

/-- One observable step of the apply handler, in program order. -/
inductive ApplyStep where
  | reply (text : String)
  | pharmacistPush (uid : String) (text : String)
  | recordApplication (rid : String)
  | sheetWrite (uid : String) (cell : String)
  deriving DecidableEq

/-- Collaborators of the apply handler: sheet row lookup, the
`record_application` outcome, the sheets client presence, and today's date
used by the fallback branch. -/
structure ApplyEnv where
  rowOf : String → Option Nat
  recordOk : Bool
  serviceUp : Bool
  today : String

def registerPromptText : String :=
  "💊 勤務依頼に応募するには、まず薬剤師登録が必要です。\n\n以下のいずれかの方法で登録してください：\n\n1️⃣ 薬剤師登録（勤務依頼を受信・応募）\n→ 「薬剤師登録」と入力\n\n2️⃣ 店舗登録（勤務依頼を送信）\n→ 「店舗登録」と入力\n\nどちらを選択されますか？"

def storeCannotApplyText : String :=
  "🏪 店舗ユーザーは勤務依頼に応募できません。\n勤務依頼の送信のみ可能です。\n\n「勤務依頼」と入力して依頼を送信してください。"

/-- The confirmation pushed to the applying pharmacist by
`_handle_application`. -/
def applyConfirmText (rid : String) : String :=
  "✅ 応募を受け付けました！\n依頼ID: " ++ rid
    ++ "\n\n店舗からの確定連絡をお待ちください。\n確定次第、詳細をお知らせいたします。"

/-- The success reply of `handle_pharmacist_apply` (with the placeholder
pharmacist name `薬剤師A` and `_handle_application`'s result message). -/
def applySuccessText (rid : String) : String :=
  "✅ 応募処理が完了しました！\n依頼ID: " ++ rid
    ++ "\n薬剤師: 薬剤師A\n結果: Pharmacist 薬剤師A applied for request " ++ rid

/-- The schedule cell written by the apply handler: labels from the stored
request when present, fallback defaults otherwise. -/
def applySheetCellText (requestData : Option RequestData) : String :=
  match requestData with
  | some rd =>
      if rd.date.isSome then
        rd.startTimeLabel ++ "〜" ++ rd.endTimeLabel ++ " " ++ rd.store
      else "9:00〜18:00 サンライズ薬局"
  | none => "9:00〜18:00 サンライズ薬局"

/-- `handle_pharmacist_apply`: unregistered users get a registration prompt
and store users an error; for a pharmacist the handler looks the request up,
calls `add_applicant` (a silent no-op when the request id is unknown), runs
`_handle_application` (confirmation push, best-effort sheets record — always
reporting success), writes the schedule cell best-effort, and replies with
the success acknowledgment.  No branch reports a missing request. -/
def handlePharmacistApply (env : ApplyEnv) (ut : UserType) (reg : Registry)
    (uid rid : String) : Registry × List ApplyStep :=
  match ut with
  | .unknown => (reg, [.reply registerPromptText])
  | .store => (reg, [.reply storeCannotApplyText])
  | .pharmacist =>
      let requestData := getRequest reg rid
      let reg' := addApplicant reg rid uid
      let confirmPush : List ApplyStep :=
        if uid != "" && !(strStartsWith uid "U1234567890") then
          [.pharmacistPush uid (applyConfirmText rid)]
        else []
      let sheetPart : List ApplyStep :=
        match env.rowOf uid with
        | none => []
        | some _ =>
            if env.serviceUp then [.sheetWrite uid (applySheetCellText requestData)]
            else []
      (reg', confirmPush ++ [.recordApplication rid] ++ sheetPart
        ++ [.reply (applySuccessText rid)])

/-! ### Concrete sample data used in the theorems below -/

/-- An accept-handler environment in which the spreadsheet collaborator finds
no rows (sheet effects are skipped, as in a fresh development setup). -/
def envNoSheets : AcceptEnv := { rowOf := fun _ => none, serviceUp := false }

/-- A sample request dictionary, as built by the confirmation flow. -/
def sampleRequestInput : RequestData :=
  { date := some "2025-04-15"
    timeSlot := "time_afternoon"
    requiredCount := 2
    count := none
    notes := none
    store := "サンライズ薬局"
    storeUserId := "Ustore"
    startTimeLabel := "13:00"
    endTimeLabel := "17:00"
    breakTimeLabel := "1時間"
    countText := "2名"
    status := ""
    applicants := []
    confirmed := [] }

/-- `sampleRequestInput` as it sits in the registry after `save_request`. -/
def savedSampleRequest : RequestData := { sampleRequestInput with status := "pending" }

/-- Sample temp data for a complete afternoon request with headcount 2. -/
def confirmTempSample : TempData :=
  { date := some "2025/04/15"
    timeSlot := some "time_afternoon"
    requiredCount := some 2
    notes := none
    startTimeData := some "start_time_1300"
    endTimeData := some "end_time_1700"
    breakTimeData := some "break_60" }

/-- A development-mode notification environment whose pushes succeed. -/
def devNotifyEnv : NotifyEnv :=
  { isDevelopment := true, isProduction := false, sendOk := fun _ => true }

/-- Four available pharmacists with valid-looking chat ids. -/
def fourPharmacists : List PharmacistRec :=
  [{ userId := some "Ua123456789012345678901234567890p1", name := "P1" },
   { userId := some "Ua123456789012345678901234567890p2", name := "P2" },
   { userId := some "Ua123456789012345678901234567890p3", name := "P3" },
   { userId := some "Ua123456789012345678901234567890p4", name := "P4" }]

/-- A directory record with no chat user id. -/
def noIdPharmacist : PharmacistRec := { userId := none, name := "薬剤師花子" }

/-- A draft whose start time is 18:00. -/
def eveningStartDraft : Draft :=
  { startTime := some "start_time_1800", endTime := none, breakTime := none }

/-- An apply-handler environment with no sheet row resolution. -/
def plainApplyEnv : ApplyEnv :=
  { rowOf := fun _ => none, recordOk := true, serviceUp := false, today := "2025-04-01" }

/-- The registry of C1's failing input: a request confirmed through
`handle_confirmation_yes` with headcount 2, then two pharmacists A and B
apply. -/
def twoApplicantRegistry : Registry :=
  addApplicant
    (addApplicant
      (handleConfirmationYes devNotifyEnv confirmTempSample (some "サンライズ薬局")
        [] [] "r1" "Ustore").1
      "r1" "A")
    "r1" "B"

theorem getRequest_updateRequest (reg : Registry) (rid : String)
    (f : RequestData → RequestData) :
    getRequest (updateRequest reg rid f) rid = (getRequest reg rid).map f := by
  induction reg with
  | nil => rfl
  | cons p l ih =>
      by_cases h : p.1 = rid
      · simp [getRequest, updateRequest, List.find?_cons_of_pos, h]
      · simp only [updateRequest, List.map_cons] at ih ⊢
        rw [if_neg (by simp [h])]
        simp only [getRequest] at ih ⊢
        rw [List.find?_cons_of_neg _ (by simp [h]), List.find?_cons_of_neg _ (by simp [h])]
        exact ih

theorem updateRequest_updateRequest (reg : Registry) (rid : String)
    (f g : RequestData → RequestData) :
    updateRequest (updateRequest reg rid f) rid g
      = updateRequest reg rid (fun d => g (f d)) := by
  unfold updateRequest
  rw [List.map_map]
  congr 1
  funext p
  by_cases h : p.1 = rid
  · simp [Function.comp, h]
  · simp [Function.comp, h]

theorem updateRequest_congr (reg : Registry) (rid : String)
    (f g : RequestData → RequestData) (hfg : ∀ d, f d = g d) :
    updateRequest reg rid f = updateRequest reg rid g := by
  unfold updateRequest
  congr 1
  funext p
  by_cases h : p.1 = rid
  · simp [h, hfg]
  · simp [h]

/-- The registry component of the accept handler is exactly `acceptRegistry`:
`add_confirmed` when the request exists, unchanged otherwise. -/
theorem handlePharmacistConfirmAccept_fst (env : AcceptEnv) (reg : Registry)
    (rid uid : String) :
    (handlePharmacistConfirmAccept env reg rid uid).1 = acceptRegistry reg rid uid := by
  unfold handlePharmacistConfirmAccept acceptRegistry
  cases h : getRequest reg rid <;> simp [h]

/-- C6: applying is idempotent — for every registry, request id and
pharmacist identity, a second `add_applicant` with the same identity leaves
the registry (hence the request's applicants list: elements, size and order)
exactly as after the first; the second apply is a no-op. -/
theorem c6_apply_twice_is_noop (reg : Registry) (rid uid : String) :
    addApplicant (addApplicant reg rid uid) rid uid = addApplicant reg rid uid := by
  cases h : getRequest reg rid with
  | none => simp [addApplicant, h]
  | some d =>
      have h1 : addApplicant reg rid uid
          = updateRequest reg rid (fun d =>
              { d with applicants :=
                  if uid ∈ d.applicants then d.applicants else d.applicants ++ [uid] }) := by
        simp [addApplicant, h]
      have h2 : getRequest (addApplicant reg rid uid) rid
          = some { d with applicants :=
              if uid ∈ d.applicants then d.applicants else d.applicants ++ [uid] } := by
        rw [h1, getRequest_updateRequest, h]
        rfl
      conv_lhs => rw [h1]
      rw [h1]
      unfold addApplicant
      rw [← h1, h2, h1]
      rw [updateRequest_updateRequest]
      apply updateRequest_congr
      intro d'
      by_cases hm : uid ∈ d'.applicants
      · simp [hm]
      · simp [hm]

/-- C5 counterexample: from the empty registry, saving a request and then
processing a store accept for a pharmacist who never applied yields a
reachable state in which `confirmed` is not a subset of `applicants`. -/
theorem c5_counterexample_confirmed_not_subset :
    ¬ ConfirmedSubsetApplicants
        (runEvents [.saveEvt "r1" sampleRequestInput, .acceptEvt "r1" "PX"]) := by
  intro h
  have hget : getRequest
      (runEvents [.saveEvt "r1" sampleRequestInput, .acceptEvt "r1" "PX"]) "r1"
      = some { savedSampleRequest with confirmed := ["PX"] } := by rfl
  have hmem := h _ _ hget "PX" (by simp)
  simp [savedSampleRequest, sampleRequestInput] at hmem

/-- C5 (amended): a store accept adds the pharmacist to the request's
`confirmed` list whenever the request exists, with no check that the
pharmacist is among the applicants (the applicants list is left unchanged);
`confirmed ⊆ applicants` is therefore not an invariant of reachable states. -/
theorem c5_accept_adds_confirmed_unconditionally (reg : Registry)
    (rid uid : String) (d : RequestData) (h : getRequest reg rid = some d) :
    getRequest (acceptRegistry reg rid uid) rid
      = some { d with confirmed :=
          if uid ∈ d.confirmed then d.confirmed else d.confirmed ++ [uid] } := by
  unfold acceptRegistry
  rw [h]
  unfold addConfirmed
  rw [h, getRequest_updateRequest, h]
  rfl

/-- Witness for C5's amended theorem at a concrete accept of a non-applicant. -/
theorem c5_witness :
    getRequest
        (acceptRegistry (runEvents [.saveEvt "r1" sampleRequestInput]) "r1" "PX") "r1"
      = some { savedSampleRequest with confirmed :=
          if "PX" ∈ savedSampleRequest.confirmed then savedSampleRequest.confirmed
          else savedSampleRequest.confirmed ++ ["PX"] } :=
  c5_accept_adds_confirmed_unconditionally
    (runEvents [.saveEvt "r1" sampleRequestInput]) "r1" "PX" savedSampleRequest rfl

/-- C7: a store accept on a request id absent from the registry replies the
failure message to the acting store and stops — the trace holds exactly that
reply (no sheet write, no pharmacist message, no closure) and the registry is
returned unchanged. -/
theorem c7_accept_unknown_request_noop (env : AcceptEnv) (reg : Registry)
    (rid uid : String) (h : getRequest reg rid = none) :
    handlePharmacistConfirmAccept env reg rid uid
      = (reg, [.failReply notFoundText]) := by
  unfold handlePharmacistConfirmAccept
  rw [h]

/-- Witness for C7 on the empty registry. -/
theorem c7_witness :
    handlePharmacistConfirmAccept envNoSheets [] "missing" "P1"
      = ([], [.failReply notFoundText]) :=
  c7_accept_unknown_request_noop envNoSheets [] "missing" "P1" rfl

/-- C8 counterexample: for a concrete accept on a present request, the
completion acknowledgment to the store appears in the trace at index 1,
strictly before the `add_confirmed` mutation at index 2 — the
"acknowledgment only after the mutation" property fails. -/
theorem c8_counterexample_ack_before_mutation :
    ¬ AckOnlyAfterAddConfirmed "r1" "A"
        (acceptTrace envNoSheets (saveRequest [] "r1" sampleRequestInput) "r1" "A") := by
  intro h
  have h12 := h 1 2 rfl rfl
  omega

/-- C8 (amended): on a present request the completion acknowledgment to the
store is sent immediately BEFORE the pharmacist is added to the confirmed
list — the trace splits as `pre ++ [storeReply, addConfirmed] ++ post`. -/
theorem c8_ack_immediately_before_mutation (env : AcceptEnv) (reg : Registry)
    (rid uid : String) (rd : RequestData) (h : getRequest reg rid = some rd) :
    ∃ pre post, acceptTrace env reg rid uid
      = pre ++ [.storeReply storeAckText, .addConfirmedStep rid uid] ++ post := by
  unfold acceptTrace handlePharmacistConfirmAccept
  rw [h]
  refine ⟨sheetSteps env rd uid ++ [.pharmacistMsg uid (confirmMsgText rd)], ?_, ?_⟩
  · exact
      (if countNumOfRequest rd ≤ (getConfirmed (addConfirmed reg rid uid) rid).length then
        ((getApplicants (addConfirmed reg rid uid) rid).filter
          (fun a => !((getConfirmed (addConfirmed reg rid uid) rid).contains a))).map
          (fun a => AcceptStep.closureMsg a closureText)
      else [])
  · simp

/-- Witness for C8's amended theorem at a concrete accept. -/
theorem c8_witness :
    ∃ pre post,
      acceptTrace envNoSheets (saveRequest [] "r1" sampleRequestInput) "r1" "A"
        = pre ++ [.storeReply storeAckText, .addConfirmedStep "r1" "A"] ++ post :=
  c8_ack_immediately_before_mutation envNoSheets
    (saveRequest [] "r1" sampleRequestInput) "r1" "A" savedSampleRequest rfl

/-- C1 (code bug): a request confirmed through `handle_confirmation_yes`
stores its headcount only under `required_count`, while the accept handler
reads the absent `count` key and falls back to `count_1`; hence for the
request saved with `required_count = 2` and applicants A and B, the FIRST
store accept of A already pushes the closure ("not selected") message to B,
although only 1 of 2 slots is filled. -/
theorem c1_first_accept_sends_closure_despite_required_two :
    (getRequest twoApplicantRegistry "r1").map (fun d => d.requiredCount) = some 2
    ∧ (getRequest twoApplicantRegistry "r1").map (fun d => d.count) = some none
    ∧ getConfirmed
        (handlePharmacistConfirmAccept envNoSheets twoApplicantRegistry "r1" "A").1
        "r1" = ["A"]
    ∧ AcceptStep.closureMsg "B" closureText
        ∈ (handlePharmacistConfirmAccept envNoSheets twoApplicantRegistry "r1" "A").2 := by
  decide

/-- C2 counterexample: dispatch after confirmation with `required_count = 2`
and four available pharmacists selects 2 of them, not
`min(available_count, required_count * 2) = 4` as claimed. -/
theorem c2_counterexample_no_double_overshoot :
    selectedCount
        (handleConfirmationYes devNotifyEnv confirmTempSample (some "サンライズ薬局")
          fourPharmacists [] "r2" "Ustore").2 = 2
    ∧ min fourPharmacists.length (2 * 2) = 4
    ∧ (2 : Nat) ≠ 4 := by
  decide

/-- C2 (amended): in `handle_confirmation_yes` the number of pharmacists
selected for notification equals `min(required_count, available_count)` —
the slice is `available_pharmacists[:count_num]` with `count_num` the
required count; the 2x overshoot exists only in the separate
`ScheduleService` path, not in this handler. -/
theorem c2_selected_is_min_required_available (nenv : NotifyEnv) (temp : TempData)
    (available : List PharmacistRec) (reg : Registry) (rid userId : String)
    (dateV tsV sN : String) (n : Nat)
    (hd : temp.date = some dateV) (hts : temp.timeSlot = some tsV)
    (hn : temp.requiredCount = some n) (hts0 : tsV ≠ "") (hn0 : n ≠ 0) :
    selectedCount
        (handleConfirmationYes nenv temp (some sN) available reg rid userId).2
      = min n available.length := by
  unfold handleConfirmationYes
  rw [hd, hts, hn]
  have hguard : (tsV == "" || n == 0) = false := by
    simp [hts0, hn0]
  simp [hguard, selectedCount, List.length_take]

/-- Witness for C2's amended theorem at the concrete four-pharmacist input. -/
theorem c2_witness :
    selectedCount
        (handleConfirmationYes devNotifyEnv confirmTempSample (some "サンライズ薬局")
          fourPharmacists [] "r2" "Ustore").2
      = min 2 fourPharmacists.length :=
  c2_selected_is_min_required_available devNotifyEnv confirmTempSample
    fourPharmacists [] "r2" "Ustore" "2025/04/15" "time_afternoon" "サンライズ薬局" 2
    rfl rfl rfl (by decide) (by decide)

/-- C3 counterexample: free text whose count regex matches 0 (e.g.
"4/15 AM 0名") stores `required_count = 0`, which is outside 1..3 — the
clamp only caps values above 3 and never raises 0 to 1. -/
theorem c3_counterexample_zero_count :
    parseShiftRequestRequiredCount (some 0) = 0
    ∧ ¬ (1 ≤ parseShiftRequestRequiredCount (some 0)
          ∧ parseShiftRequestRequiredCount (some 0) ≤ 3) := by
  decide

/-- C3 (amended): the menu path always stores a count in 1..3 with the
3-plus choice yielding exactly 3, and the free-text path clamps any parsed
count above 3 down to 3 and defaults to 1 when no count is present; the
free-text result, however, lies in 0..3 — an explicit parsed 0 is stored
as 0. -/
theorem c3_headcount_clamp (m : Option Nat) (s : String) :
    parseShiftRequestRequiredCount m ≤ 3
    ∧ (∀ n, 3 < n → parseShiftRequestRequiredCount (some n) = 3)
    ∧ parseShiftRequestRequiredCount none = 1
    ∧ countChoiceRequiredCount "count_3_plus" = 3
    ∧ 1 ≤ countChoiceRequiredCount s ∧ countChoiceRequiredCount s ≤ 3 := by
  refine ⟨?_, ?_, rfl, rfl, ?_, ?_⟩
  · cases m with
    | none => decide
    | some n =>
        show (if n > 3 then 3 else n) ≤ 3
        split <;> omega
  · intro n hn
    show (if n > 3 then 3 else n) = 3
    rw [if_pos hn]
  · unfold countChoiceRequiredCount
    split
    · omega
    · split <;> omega
  · unfold countChoiceRequiredCount
    split
    · omega
    · split <;> omega

/-- Witness for C3's amended theorem: a parsed 5 clamps to 3 and an unknown
menu token yields the in-range default 1. -/
theorem c3_witness :
    parseShiftRequestRequiredCount (some 5) = 3
    ∧ 1 ≤ countChoiceRequiredCount "count_9" :=
  ⟨(c3_headcount_clamp (some 5) "count_9").2.1 5 (by decide),
   (c3_headcount_clamp (some 5) "count_9").2.2.2.2.1⟩

/-- C4 counterexample: the `end_time_` branch of `handle_postback` stores any
end-time token without re-checking it against the stored start time, so with
start 18:00 a postback `end_time_1000` (10:00, e.g. a stale button of an
earlier menu) is accepted into the draft although it is not after the start. -/
theorem c4_counterexample_unvalidated_store :
    (handleEndTimePostback eveningStartDraft "end_time_1000").endTime
        = some "end_time_1000"
    ∧ parseTimeToken "start_time_" "start_time_1800" = (18, 0)
    ∧ parseTimeToken "end_time_" "end_time_1000" = (10, 0)
    ∧ ¬ afterStart 18 0 10 0 := by
  refine ⟨by decide, by decide, by decide, ?_⟩
  intro hc
  rcases hc with hc | ⟨hc1, hc2⟩
  · omega
  · omega

/-- C4 (amended): every end-time option the band menu offers is strictly
after the decoded start time, and a band containing no qualifying time yields
the re-prompt reply (no storage); however the postback handler stores any
received `end_time_` token unvalidated, so the strict inequality is
guaranteed only for end times chosen from the offered menu. -/
theorem c4_band_options_after_start (s bandData : String) :
    (∀ p ∈ offeredOptions (handleEndTimeBandDetailSelection (some s) bandData),
        afterStart (parseTimeToken "start_time_" s).1
          (parseTimeToken "start_time_" s).2 p.1 p.2)
    ∧ (selectableEndTimes bandData (parseTimeToken "start_time_" s).1
          (parseTimeToken "start_time_" s).2 = [] →
        handleEndTimeBandDetailSelection (some s) bandData
          = .rePrompt rePromptText) := by
  constructor
  · intro p hp
    unfold handleEndTimeBandDetailSelection at hp
    by_cases hsel : selectableEndTimes bandData
        (parseTimeToken "start_time_" s).1 (parseTimeToken "start_time_" s).2 = []
    · simp [hsel, offeredOptions] at hp
    · simp only [hsel, if_neg, ite_false] at hp
      simp only [offeredOptions] at hp
      unfold selectableEndTimes at hp
      have hcond := (List.mem_filter.mp hp).2
      have := of_decide_eq_true hcond
      unfold afterStart
      exact this
  · intro hsel
    unfold handleEndTimeBandDetailSelection
    simp [hsel]

/-- Witness for C4's amended theorem: start 16:00, evening band, option
17:00 is offered and is after the start. -/
theorem c4_witness :
    afterStart (parseTimeToken "start_time_" "start_time_1600").1
      (parseTimeToken "start_time_" "start_time_1600").2 17 0 :=
  (c4_band_options_after_start "start_time_1600" "end_band_evening").1
    (17, 0) (by decide)

/-- Fold invariant of the notification loop: each record adds 1 to exactly
one of the two counters — `notified_count` when its send path reports
success, `failed_count` otherwise — and the total is untouched. -/
theorem notifyFold_counts (env : NotifyEnv) (ps : List PharmacistRec)
    (acc : NotifyResult) :
    ((ps.foldl (notifyStep env) acc).totalPharmacists = acc.totalPharmacists)
    ∧ ((ps.foldl (notifyStep env) acc).notifiedCount
        = acc.notifiedCount + (ps.filter (fun p => notifySucceeds env p)).length)
    ∧ ((ps.foldl (notifyStep env) acc).failedCount
        = acc.failedCount + (ps.filter (fun p => !(notifySucceeds env p))).length) := by
  induction ps generalizing acc with
  | nil => simp
  | cons p l ih =>
      obtain ⟨ih1, ih2, ih3⟩ := ih (notifyStep env acc p)
      have hstep : (notifyStep env acc p).totalPharmacists = acc.totalPharmacists
          ∧ (notifyStep env acc p).notifiedCount
              = acc.notifiedCount + (if notifySucceeds env p then 1 else 0)
          ∧ (notifyStep env acc p).failedCount
              = acc.failedCount + (if notifySucceeds env p then 0 else 1) := by
        unfold notifyStep notifySucceeds hasUsableId
        cases hp : p.userId with
        | none => simp
        | some uid =>
            by_cases hu : uid = ""
            · subst hu; simp
            · have hub : (uid == "") = false := by simp [hu]
              by_cases hs : sendNotificationToPharmacist env uid
              · simp [hub, hu, hs]
              · simp [hub, hu, hs]
      refine ⟨?_, ?_, ?_⟩
      · rw [List.foldl_cons, ih1, hstep.1]
      · rw [List.foldl_cons, ih2, hstep.2.1, List.filter_cons]
        by_cases hsu : notifySucceeds env p
        · simp [hsu]; omega
        · simp [hsu]
      · rw [List.foldl_cons, ih3, hstep.2.2, List.filter_cons]
        by_cases hsu : notifySucceeds env p
        · simp [hsu]
        · simp [hsu]; omega

/-- C9 counterexample: a selected record whose chat user id is missing is
skipped without an attempted send but IS counted — `failed_count` becomes 1
(reason "No LINE user ID"), contradicting "counted as neither success nor
failure". -/
theorem c9_counterexample_missing_id_counted_failed :
    notifyPharmacistsOfRequest devNotifyEnv [noIdPharmacist]
      = { totalPharmacists := 1
          notifiedCount := 0
          failedCount := 1
          failedPharmacists := [("薬剤師花子", "No LINE user ID")] }
    ∧ (notifyPharmacistsOfRequest devNotifyEnv [noIdPharmacist]).failedCount ≠ 0 := by
  decide

/-- C9 (amended): in the dispatch fan-out, records whose chat user id is
missing or empty are skipped without an attempted send but ARE counted as
failures; `notified_count` counts exactly the records with a usable id whose
send path reports success, `failed_count` exactly the rest, and
`total_pharmacists` is the number of selected records. -/
theorem c9_notify_counts (env : NotifyEnv) (ps : List PharmacistRec) :
    (notifyPharmacistsOfRequest env ps).totalPharmacists = ps.length
    ∧ (notifyPharmacistsOfRequest env ps).notifiedCount
        = (ps.filter (fun p => notifySucceeds env p)).length
    ∧ (notifyPharmacistsOfRequest env ps).failedCount
        = (ps.filter (fun p => !(notifySucceeds env p))).length := by
  unfold notifyPharmacistsOfRequest
  obtain ⟨h1, h2, h3⟩ := notifyFold_counts env ps
    { totalPharmacists := ps.length
      notifiedCount := 0
      failedCount := 0
      failedPharmacists := [] }
  exact ⟨by rw [h1], by rw [h2]; simp, by rw [h3]; simp⟩

/-- C10: a pharmacist apply on a request id absent from the registry leaves
the registry completely unchanged (`add_applicant` silently no-ops, creating
nothing), yet the handler still completes the flow and replies with the
success acknowledgment — every reply it emits is that success text, so the
missing request is never reported to the pharmacist. -/
theorem c10_apply_unknown_request_silent_success (env : ApplyEnv)
    (reg : Registry) (uid rid : String) (h : getRequest reg rid = none) :
    (handlePharmacistApply env .pharmacist reg uid rid).1 = reg
    ∧ ApplyStep.reply (applySuccessText rid)
        ∈ (handlePharmacistApply env .pharmacist reg uid rid).2
    ∧ ∀ t, ApplyStep.reply t ∈ (handlePharmacistApply env .pharmacist reg uid rid).2
        → t = applySuccessText rid := by
  unfold handlePharmacistApply
  refine ⟨?_, ?_, ?_⟩
  · simp [addApplicant, h]
  · simp
  · intro t ht
    simp only [List.mem_append, List.mem_singleton] at ht
    rcases ht with ((h1 | h2) | h3) | h4
    · by_cases hc : (uid != "" && !(strStartsWith uid "U1234567890")) = true
      · simp [hc] at h1
      · simp [hc] at h1
    · exact absurd h2 (by simp)
    · cases hr : env.rowOf uid with
      | none => simp [hr] at h3
      | some r =>
          by_cases hs : env.serviceUp
          · simp [hr, hs] at h3
          · simp [hr, hs] at h3
    · exact ApplyStep.reply.inj h4

/-- Witness for C10 on the empty registry. -/
theorem c10_witness :
    (handlePharmacistApply plainApplyEnv .pharmacist [] "Uph1" "r9").1
        = ([] : Registry)
    ∧ ApplyStep.reply (applySuccessText "r9")
        ∈ (handlePharmacistApply plainApplyEnv .pharmacist [] "Uph1" "r9").2
    ∧ ∀ t, ApplyStep.reply t
        ∈ (handlePharmacistApply plainApplyEnv .pharmacist [] "Uph1" "r9").2
        → t = applySuccessText "r9" :=
  c10_apply_unknown_request_silent_success plainApplyEnv [] "Uph1" "r9" rfl

end Shift
